import Mathlib

/-!
Verification of the bathroom-fan and stairway-fan controllers
(`bathroom_fan.py`, `stairway_fan.py`) against their design specification.

The Python code is shallowly embedded: sensor readings, thresholds and the
humidity formulas use exact rationals (`ℚ`); `math.exp` is modelled as an
abstract function `ℚ → ℚ` carried in the environment, since every claim
here is about the arithmetic around it or about control flow, never about
the value of the exponential itself.  Each AppDaemon callback becomes a
pure function from the controller state (and the external store, read-only
during one serialized event) to a new state plus the list of external
commands it issued, in program order.  The AppDaemon scheduler is modelled
explicitly by a list of pending one-shot timers inside the state, so that
"at most one timer per kind" is a provable invariant rather than a
modelling artefact.
-/

namespace BathroomFan

/-- Raw value of an entity in the state store, as seen by `get_state`:
`missing` is Python `None`, `unknown`/`unavailable` are the literal strings
the code filters out, `nonNumeric` is any other string on which `float`
raises `ValueError`, and `numeric q` is a string parsing to the number `q`. -/
inductive RawVal where
  | missing
  | unknown
  | unavailable
  | nonNumeric
  | numeric (q : ℚ)
deriving DecidableEq

/-- Value of an on/off entity (the actor switch or the app switch):
`other` covers any state string besides "on" and "off". -/
inductive SwVal where
  | on
  | off
  | other
deriving DecidableEq

/-- The watched entities of `BathroomFan` (`watched_entity_list`). -/
inductive Entity where
  | bathHum
  | livHum
  | bathTemp
  | livTemp
  | actor
  | gate
deriving DecidableEq

/-- The two delayed-shutoff timer kinds: `autoShutoff` is the
`humidity_turn_off_timer_handle` / `turn_off_callback` pair, and
`manualShutoff` is `manual_turn_off_timer_handle` / `manual_turn_off_callback`. -/
inductive TimerKind where
  | autoShutoff
  | manualShutoff
deriving DecidableEq

/-- External commands the controller can issue during one event:
actuator commands (`self.turn_on` / `self.turn_off`), and scheduler
interactions (`self.run_in` / `self.cancel_timer`). -/
inductive Cmd where
  | turnOn
  | turnOff
  | cancelTimer (id : Nat)
  | scheduleTimer (id : Nat) (kind : TimerKind) (delay : Int)
deriving DecidableEq

/-- A pending one-shot timer inside the modelled scheduler.  `payload` is
the `humidity_difference` keyword argument passed to `run_in` for the
manual timer (used by the callback only in its log line); the auto timer
carries payload `0`. -/
structure PendingTimer where
  id : Nat
  kind : TimerKind
  payload : ℚ
deriving DecidableEq

/-- The configuration read in `initialize` (entity ids abstracted away;
`hasGate` records whether the optional `app_switch` is configured and
`tempUnitF` whether `temperature_unit == "F"`). -/
structure Config where
  hasGate : Bool
  tempUnitF : Bool
  threshold : ℚ
  lower_threshold : ℚ
  delay : Int
  manual_delay : Int

/-- The external store at the time one serialized event is handled:
results of `get_state` on each watched entity, plus the model of
`math.exp`.  The store is read-only during a single handler. -/
structure Env where
  gate : SwVal
  actor : SwVal
  bathHum : RawVal
  livHum : RawVal
  bathTemp : RawVal
  livTemp : RawVal
  exp : ℚ → ℚ

/-- The mutable instance state of `BathroomFan`, together with the modelled
scheduler queue (`pending`, with `nextId` supplying fresh timer ids). -/
structure FanState where
  manual_turn_off_timer_handle : Option Nat
  humidity_turn_off_timer_handle : Option Nat
  auto_activated : Bool
  timer_turn_off : Bool
  timer_handle_list : List Nat
  pending : List PendingTimer
  nextId : Nat
deriving DecidableEq

/-- The state set up at the end of `initialize`: no timers, both flags
false, empty handle list, empty scheduler queue. -/
def initState : FanState :=
  { manual_turn_off_timer_handle := none
    humidity_turn_off_timer_handle := none
    auto_activated := false
    timer_turn_off := false
    timer_handle_list := []
    pending := []
    nextId := 0 }

/-- `get_valid_state`: `None`, `"unknown"`, `"unavailable"` and
non-numeric strings yield `None`; otherwise the parsed float. -/
def get_valid_state : RawVal → Option ℚ
  | .numeric q => some q
  | _ => none

/-- `calculate_absolute_humidity`, parameterized by the model of
`math.exp` and by the configured temperature unit, transcribed from the
source: Fahrenheit path `K = (T−32)·5/9 + 273.15`, `C = (T−32)/1.8`;
Celsius path `K = T + 273.15`, `C = T`; saturation vapor pressure
`6.112·exp(17.67·C/(C+243.5))·100`; actual vapor pressure `(RH/100)·Psat`;
absolute humidity `(Pact/(461.5·K))·1000`. -/
def calculate_absolute_humidity (exp : ℚ → ℚ) (tempUnitF : Bool)
    (relative_humidity temperature : ℚ) : ℚ :=
  let temperature_kelvin : ℚ :=
    if tempUnitF then (temperature - 32) * 5 / 9 + 273.15 else temperature + 273.15
  let temperature_celsius : ℚ :=
    if tempUnitF then (temperature - 32) / 1.8 else temperature
  let saturation_vapor_pressure : ℚ :=
    6.112 * exp ((17.67 * temperature_celsius) / (temperature_celsius + 243.5)) * 100
  let actual_vapor_pressure : ℚ := (relative_humidity / 100) * saturation_vapor_pressure
  let R_w : ℚ := 461.5
  (actual_vapor_pressure / (R_w * temperature_kelvin)) * 1000

/-- `calculate_humidity_difference`: validates the four readings as a unit
and returns `(bathroom − living, bathroom, living)` absolute humidities,
or `none` when any reading is invalid. -/
def calculate_humidity_difference (cfg : Config) (env : Env) :
    Option (ℚ × ℚ × ℚ) :=
  match get_valid_state env.bathHum, get_valid_state env.livHum,
        get_valid_state env.bathTemp, get_valid_state env.livTemp with
  | some bathroom_humidity, some living_humidity,
    some bathroom_temperature, some living_temperature =>
      let bathroom_absolute_humidity :=
        calculate_absolute_humidity env.exp cfg.tempUnitF bathroom_humidity bathroom_temperature
      let living_absolute_humidity :=
        calculate_absolute_humidity env.exp cfg.tempUnitF living_humidity living_temperature
      some (bathroom_absolute_humidity - living_absolute_humidity,
            bathroom_absolute_humidity, living_absolute_humidity)
  | _, _, _, _ => none

/-- Modelled from the spec sentence of claim C8 (not from the source):
`(RH/100 · 6.112 · e^(17.67·C/(C+243.5)) · 100) / (461.5 · K) · 1000`
with `C = (T−32)/1.8`, `K = (T−32)·5/9 + 273.15` for Fahrenheit and
`C = T`, `K = T + 273.15` for Celsius.  Compared against
`calculate_absolute_humidity` in claim C8. -/
def absoluteHumiditySpec (exp : ℚ → ℚ) (tempUnitF : Bool)
    (relative_humidity temperature : ℚ) : ℚ :=
  let c : ℚ := if tempUnitF then (temperature - 32) / 1.8 else temperature
  let k : ℚ := if tempUnitF then (temperature - 32) * 5 / 9 + 273.15 else temperature + 273.15
  (relative_humidity / 100 * 6.112 * exp ((17.67 * c) / (c + 243.5)) * 100) / (461.5 * k) * 1000

/-- Handle field selected by timer kind (`humidity_turn_off_timer_handle`
for `autoShutoff`, `manual_turn_off_timer_handle` for `manualShutoff`). -/
def getHandle (s : FanState) : TimerKind → Option Nat
  | .autoShutoff => s.humidity_turn_off_timer_handle
  | .manualShutoff => s.manual_turn_off_timer_handle

/-- `setattr(self, timer_handle_name, v)` for the two handle fields. -/
def setHandle (s : FanState) : TimerKind → Option Nat → FanState
  | .autoShutoff, v => { s with humidity_turn_off_timer_handle := v }
  | .manualShutoff, v => { s with manual_turn_off_timer_handle := v }

/-- Effect of `self.cancel_timer(h)` on the modelled scheduler queue:
the one-shot timer with id `h` is no longer pending. -/
def removePending (p : List PendingTimer) (i : Nat) : List PendingTimer :=
  p.filter fun t => decide (t.id ≠ i)

/-- `cancel_timer_handle(name)`: if the named handle is set, cancel the
underlying timer, remove the handle from `timer_handle_list` and clear
the field; otherwise do nothing. -/
def cancel_timer_handle (k : TimerKind) (s : FanState) : FanState × List Cmd :=
  match getHandle s k with
  | none => (s, [])
  | some h =>
      (setHandle { s with pending := removePending s.pending h,
                          timer_handle_list := s.timer_handle_list.erase h } k none,
       [Cmd.cancelTimer h])

/-- `schedule_manual_turn_off(humidity_difference)`: guarded by
`if not self.manual_turn_off_timer_handle`; calls
`run_in(manual_turn_off_callback, manual_delay, humidity_difference=…)`
and records the fresh handle. -/
def schedule_manual_turn_off (cfg : Config) (humidity_difference : ℚ)
    (s : FanState) : FanState × List Cmd :=
  if s.manual_turn_off_timer_handle = none then
    let h := s.nextId
    ({ s with manual_turn_off_timer_handle := some h,
              timer_handle_list := s.timer_handle_list ++ [h],
              pending := s.pending ++ [⟨h, .manualShutoff, humidity_difference⟩],
              nextId := h + 1 },
     [Cmd.scheduleTimer h .manualShutoff cfg.manual_delay])
  else (s, [])

/-- `handle_fan_turn_on`: set `auto_activated`, turn the actor on if the
store reports it off, then cancel the auto and the manual shutoff timers
(in that source order). -/
def handle_fan_turn_on (env : Env) (s : FanState) : FanState × List Cmd :=
  let s1 : FanState := { s with auto_activated := true }
  let onCmds : List Cmd := if env.actor = SwVal.off then [Cmd.turnOn] else []
  let r2 := cancel_timer_handle .autoShutoff s1
  let r3 := cancel_timer_handle .manualShutoff r2.1
  (r3.1, onCmds ++ r2.2 ++ r3.2)

/-- `handle_fan_turn_off`: guarded by
`if not self.humidity_turn_off_timer_handle and get_state(actor) == "on"`;
calls `run_in(turn_off_callback, delay)` and records the fresh handle. -/
def handle_fan_turn_off (cfg : Config) (env : Env) (s : FanState) :
    FanState × List Cmd :=
  if s.humidity_turn_off_timer_handle = none ∧ env.actor = SwVal.on then
    let h := s.nextId
    ({ s with humidity_turn_off_timer_handle := some h,
              timer_handle_list := s.timer_handle_list ++ [h],
              pending := s.pending ++ [⟨h, .autoShutoff, 0⟩],
              nextId := h + 1 },
     [Cmd.scheduleTimer h .autoShutoff cfg.delay])
  else (s, [])

/-- `turn_off_callback`: set the `timer_turn_off` marker, command the
actor off, drop the handle from `timer_handle_list` if present, clear
the handle field, reset `auto_activated`. -/
def turn_off_callback (s : FanState) : FanState × List Cmd :=
  let s1 : FanState := { s with timer_turn_off := true }
  let s2 : FanState :=
    match s1.humidity_turn_off_timer_handle with
    | some h =>
        if h ∈ s1.timer_handle_list then
          { s1 with timer_handle_list := s1.timer_handle_list.erase h }
        else s1
    | none => s1
  ({ s2 with humidity_turn_off_timer_handle := none, auto_activated := false },
   [Cmd.turnOff])

/-- `manual_turn_off_callback`: logs the `humidity_difference` payload
captured at scheduling time (the payload is used nowhere else), sets the
`timer_turn_off` marker, commands the actor off unconditionally, drops
the handle from `timer_handle_list` if present and clears the handle
field.  It does not reset `auto_activated` and reads no sensor. -/
def manual_turn_off_callback (humidity_difference : ℚ) (s : FanState) :
    FanState × List Cmd :=
  let s1 : FanState := { s with timer_turn_off := true }
  let s2 : FanState :=
    match s1.manual_turn_off_timer_handle with
    | some h =>
        if h ∈ s1.timer_handle_list then
          { s1 with timer_handle_list := s1.timer_handle_list.erase h }
        else s1
    | none => s1
  ({ s2 with manual_turn_off_timer_handle := none }, [Cmd.turnOff])

/-- Lines 96-105 of `state_change`: the two app-switch transition
branches, run before the sensor snapshot is taken.  Gate `off → on` with
the actor on and not auto-activated schedules the manual shutoff with
placeholder payload `0`; gate `on → off` cancels the manual and then the
auto timer. -/
def app_switch_branch (cfg : Config) (env : Env) (entity : Entity)
    (old new : SwVal) (s : FanState) : FanState × List Cmd :=
  if cfg.hasGate = true ∧ entity = Entity.gate ∧ old = SwVal.off ∧ new = SwVal.on then
    if env.actor = SwVal.on ∧ s.auto_activated = false then
      schedule_manual_turn_off cfg 0 s
    else (s, [])
  else if cfg.hasGate = true ∧ entity = Entity.gate ∧ old = SwVal.on ∧ new = SwVal.off then
    let ra := cancel_timer_handle .manualShutoff s
    let rb := cancel_timer_handle .autoShutoff ra.1
    (rb.1, ra.2 ++ rb.2)
  else (s, [])

/-- `state_change`, the listener for every watched entity, transcribed
branch for branch from the source (lines 83-144). -/
def state_change (cfg : Config) (env : Env) (entity : Entity)
    (old new : SwVal) (s : FanState) : FanState × List Cmd :=
  -- lines 96-105: app-switch transition branches
  let g : FanState × List Cmd := app_switch_branch cfg env entity old new s
  -- line 107: gate present and off: stop further processing
  if cfg.hasGate = true ∧ env.gate = SwVal.off then g
  else
    -- lines 110-112: invalid snapshot: return
    match calculate_humidity_difference cfg env with
    | none => g
    | some (humidity_difference, _, _) =>
      -- lines 116-132: actor turned off
      if entity = Entity.actor ∧ old = SwVal.on ∧ new = SwVal.off then
        if g.1.timer_turn_off then
          ({ g.1 with timer_turn_off := false }, g.2)
        else if g.1.auto_activated then
          let s2 : FanState := { g.1 with auto_activated := false }
          if humidity_difference > cfg.threshold then
            let r3 := handle_fan_turn_on env s2
            (r3.1, g.2 ++ r3.2)
          else (s2, g.2)
        else
          let r2 := cancel_timer_handle .manualShutoff g.1
          (r2.1, g.2 ++ r2.2)
      -- lines 134-137: actor turned on manually
      else if entity = Entity.actor ∧ new = SwVal.on ∧ old = SwVal.off ∧
          g.1.auto_activated = false then
        let r2 := schedule_manual_turn_off cfg humidity_difference g.1
        (r2.1, g.2 ++ r2.2)
      -- lines 138-144: normal humidity-based control
      else
        if humidity_difference > cfg.threshold then
          let r2 := handle_fan_turn_on env g.1
          (r2.1, g.2 ++ r2.2)
        else if humidity_difference ≤ cfg.lower_threshold then
          if g.1.manual_turn_off_timer_handle = none then
            let r2 := handle_fan_turn_off cfg env g.1
            (r2.1, g.2 ++ r2.2)
          else (g.1, g.2)
        else (g.1, g.2)

/-- Natural elapse of a pending one-shot timer: the scheduler removes it
from its queue and invokes the kind's callback. -/
def fireTimer (t : PendingTimer) (s : FanState) : FanState × List Cmd :=
  let s0 : FanState := { s with pending := removePending s.pending t.id }
  match t.kind with
  | .autoShutoff => turn_off_callback s0
  | .manualShutoff => manual_turn_off_callback t.payload s0

/-- One serialized event of the controller: either a state-change
notification (with an arbitrary store) or the firing of a pending timer. -/
inductive Step (cfg : Config) : FanState → FanState → Prop where
  | event (env : Env) (entity : Entity) (old new : SwVal) (s : FanState) :
      Step cfg s (state_change cfg env entity old new s).1
  | fire (t : PendingTimer) (s : FanState) (ht : t ∈ s.pending) :
      Step cfg s (fireTimer t s).1

/-- States reachable from the post-`initialize` state by any sequence of
serialized events. -/
inductive Reach (cfg : Config) : FanState → Prop where
  | init : Reach cfg initState
  | step {s s' : FanState} : Reach cfg s → Step cfg s s' → Reach cfg s'

/-- The atomic actions of the two shutoff callbacks, used to state
program order inside one callback body. -/
inductive CbAction where
  | setSelfCausedMarker
  | commandActuatorOff
  | removeHandleFromList
  | clearHandleField
  | resetAutoActivated
deriving DecidableEq

/-- Program order of the body of `turn_off_callback` (source lines
276-282): marker, `self.turn_off(actor)`, list removal, handle field
cleared, `auto_activated` reset. -/
def turn_off_callback_order : List CbAction :=
  [.setSelfCausedMarker, .commandActuatorOff, .removeHandleFromList,
   .clearHandleField, .resetAutoActivated]

/-- Program order of the body of `manual_turn_off_callback` (source lines
303-308). -/
def manual_turn_off_callback_order : List CbAction :=
  [.setSelfCausedMarker, .commandActuatorOff, .removeHandleFromList,
   .clearHandleField]

/-- The `self.args` dictionary as read by `initialize`: `none` models a
missing key.  Values are modelled already typed (the claims under test
concern key presence and value policy, not YAML parsing). -/
structure Args where
  app_switch : Option String
  bathroom_humidity_sensor : Option String
  living_humidity_sensor : Option String
  bathroom_temperature_sensor : Option String
  living_temperature_sensor : Option String
  temperature_unit : Option String
  threshold : Option ℚ
  lower_threshold : Option ℚ
  actor : Option String
  delay : Option Int
  manual_delay : Option Int

/-- The configuration produced when `initialize` returns normally. -/
structure ParsedConfig where
  app_switch : Option String
  bathroom_humidity_sensor : String
  living_humidity_sensor : String
  bathroom_temperature_sensor : String
  living_temperature_sensor : String
  temperature_unit : String
  threshold : ℚ
  lower_threshold : ℚ
  actor : String
  delay : Int
  manual_delay : Int
deriving DecidableEq

/-- Python's `str.upper()` on the ASCII strings used for the temperature
unit, written structurally over the character list. -/
def upperString (s : String) : String := String.mk (s.data.map Char.toUpper)

/-- The configuration-reading part of `initialize` (source lines 36-46,
named `initializeApp` because `initialize` is a Lean keyword): a missing
required key raises `KeyError` (modelled as `Except.error`); `app_switch`
and `temperature_unit` use `.get` with defaults; no value validation of
any kind is performed. -/
def initializeApp (a : Args) : Except String ParsedConfig :=
  match a.bathroom_humidity_sensor, a.living_humidity_sensor,
        a.bathroom_temperature_sensor, a.living_temperature_sensor,
        a.threshold, a.lower_threshold, a.actor, a.delay, a.manual_delay with
  | some bhs, some lhs, some bts, some lts, some th, some lth, some act,
    some d, some md =>
      .ok { app_switch := a.app_switch
            bathroom_humidity_sensor := bhs
            living_humidity_sensor := lhs
            bathroom_temperature_sensor := bts
            living_temperature_sensor := lts
            temperature_unit := upperString (a.temperature_unit.getD "F")
            threshold := th
            lower_threshold := lth
            actor := act
            delay := d
            manual_delay := md }
  | none, _, _, _, _, _, _, _, _ => .error "KeyError: bathroom_humidity_sensor"
  | _, none, _, _, _, _, _, _, _ => .error "KeyError: living_humidity_sensor"
  | _, _, none, _, _, _, _, _, _ => .error "KeyError: bathroom_temperature_sensor"
  | _, _, _, none, _, _, _, _, _ => .error "KeyError: living_temperature_sensor"
  | _, _, _, _, none, _, _, _, _ => .error "KeyError: threshold"
  | _, _, _, _, _, none, _, _, _ => .error "KeyError: lower_threshold"
  | _, _, _, _, _, _, none, _, _ => .error "KeyError: actor"
  | _, _, _, _, _, _, _, none, _ => .error "KeyError: delay"
  | _, _, _, _, _, _, _, _, none => .error "KeyError: manual_delay"

/-- Pending scheduler entries of a given timer kind. -/
def kindTimers (p : List PendingTimer) (k : TimerKind) : List PendingTimer :=
  p.filter fun t => decide (t.kind = k)

/-- Per-kind handle/scheduler agreement: when the handle field for `k` is
clear, no timer of kind `k` is pending; when it holds `h`, exactly the one
timer with id `h` of kind `k` is pending. -/
def HandleInv (s : FanState) (k : TimerKind) : Prop :=
  match getHandle s k with
  | none => kindTimers s.pending k = []
  | some h => ∃ pay, kindTimers s.pending k = [⟨h, k, pay⟩]

/-- The timer-orchestration invariant: handle/scheduler agreement for both
kinds, pairwise-distinct pending ids, and all pending ids are stale
relative to the fresh-id counter. -/
def Inv (s : FanState) : Prop :=
  (∀ k, HandleInv s k) ∧
    s.pending.Pairwise (fun t u => t.id ≠ u.id) ∧
    (∀ t ∈ s.pending, t.id < s.nextId)

end BathroomFan

namespace BathroomFan

lemma mem_kindTimers {p : List PendingTimer} {k : TimerKind} {t : PendingTimer} :
    t ∈ kindTimers p k ↔ t ∈ p ∧ t.kind = k := by
  simp [kindTimers, List.mem_filter]

lemma mem_removePending {p : List PendingTimer} {i : Nat} {t : PendingTimer} :
    t ∈ removePending p i ↔ t ∈ p ∧ t.id ≠ i := by
  simp [removePending, List.mem_filter]

lemma kindTimers_removePending (p : List PendingTimer) (i : Nat) (k : TimerKind) :
    kindTimers (removePending p i) k =
      (kindTimers p k).filter fun t => decide (t.id ≠ i) := by
  simp only [kindTimers, removePending, List.filter_filter]
  congr 1
  funext t
  exact Bool.and_comm _ _

lemma kindTimers_append (p : List PendingTimer) (e : PendingTimer) (k : TimerKind) :
    kindTimers (p ++ [e]) k = kindTimers p k ++ if e.kind = k then [e] else [] := by
  simp only [kindTimers, List.filter_append]
  congr 1
  by_cases h : e.kind = k <;> simp [h]

lemma getHandle_setHandle (s : FanState) (k : TimerKind) (v : Option Nat)
    (k' : TimerKind) :
    getHandle (setHandle s k v) k' = if k' = k then v else getHandle s k' := by
  cases k <;> cases k' <;> simp [getHandle, setHandle]

lemma pending_setHandle (s : FanState) (k : TimerKind) (v : Option Nat) :
    (setHandle s k v).pending = s.pending := by
  cases k <;> rfl

lemma nextId_setHandle (s : FanState) (k : TimerKind) (v : Option Nat) :
    (setHandle s k v).nextId = s.nextId := by
  cases k <;> rfl

lemma inv_congr {s s' : FanState} (h : Inv s)
    (hh : ∀ k, getHandle s' k = getHandle s k)
    (hp : s'.pending = s.pending) (hn : s'.nextId = s.nextId) : Inv s' := by
  obtain ⟨hHI, hPW, hB⟩ := h
  refine ⟨fun k => ?_, by rw [hp]; exact hPW, fun t ht => by
    rw [hn]; exact hB t (hp ▸ ht)⟩
  have := hHI k
  unfold HandleInv at this ⊢
  rw [hh k, hp]
  exact this

lemma inv_remove {s : FanState} (h : Inv s) {k : TimerKind} {i : Nat}
    (hk : getHandle s k = some i) {s' : FanState}
    (hh : getHandle s' k = none)
    (hother : ∀ k', k' ≠ k → getHandle s' k' = getHandle s k')
    (hp : s'.pending = removePending s.pending i)
    (hn : s'.nextId = s.nextId) : Inv s' := by
  obtain ⟨hHI, hPW, hB⟩ := h
  have hks := hHI k
  unfold HandleInv at hks
  rw [hk] at hks
  obtain ⟨pay, hsing⟩ := hks
  have hmem : (⟨i, k, pay⟩ : PendingTimer) ∈ s.pending := by
    have : (⟨i, k, pay⟩ : PendingTimer) ∈ kindTimers s.pending k := by
      rw [hsing]; exact List.mem_singleton.mpr rfl
    exact (mem_kindTimers.mp this).1
  refine ⟨fun k' => ?_, ?_, ?_⟩
  · by_cases hkk : k' = k
    · subst hkk
      unfold HandleInv
      rw [hh, hp, kindTimers_removePending, hsing]
      simp
    · have hgh := hother k' hkk
      have hks' := hHI k'
      unfold HandleInv at hks' ⊢
      rw [hgh, hp, kindTimers_removePending]
      cases hk' : getHandle s k' with
      | none =>
          rw [hk'] at hks'
          rw [hks']
          rfl
      | some j =>
          rw [hk'] at hks'
          obtain ⟨pay', hsing'⟩ := hks'
          rw [hsing']
          have hmem' : (⟨j, k', pay'⟩ : PendingTimer) ∈ s.pending := by
            have : (⟨j, k', pay'⟩ : PendingTimer) ∈ kindTimers s.pending k' := by
              rw [hsing']; exact List.mem_singleton.mpr rfl
            exact (mem_kindTimers.mp this).1
          have hne : (⟨j, k', pay'⟩ : PendingTimer) ≠ ⟨i, k, pay⟩ := by
            intro hEq
            apply hkk
            exact congrArg PendingTimer.kind hEq
          have hji : j ≠ i :=
            hPW.forall (fun a b hab => hab.symm) hmem' hmem hne
          exact ⟨pay', by simp [hji]⟩
  · rw [hp]
    exact hPW.sublist (List.filter_sublist _)
  · intro t ht
    rw [hn]
    exact hB t (mem_removePending.mp (hp ▸ ht)).1

lemma inv_sched {s : FanState} (h : Inv s) {k : TimerKind} {q : ℚ}
    (hk : getHandle s k = none) {s' : FanState}
    (hh : getHandle s' k = some s.nextId)
    (hother : ∀ k', k' ≠ k → getHandle s' k' = getHandle s k')
    (hp : s'.pending = s.pending ++ [⟨s.nextId, k, q⟩])
    (hn : s'.nextId = s.nextId + 1) : Inv s' := by
  obtain ⟨hHI, hPW, hB⟩ := h
  have hks := hHI k
  unfold HandleInv at hks
  rw [hk] at hks
  refine ⟨fun k' => ?_, ?_, ?_⟩
  · by_cases hkk : k' = k
    · subst hkk
      unfold HandleInv
      rw [hh, hp, kindTimers_append, hks]
      exact ⟨q, by simp⟩
    · have hgh := hother k' hkk
      have hks' := hHI k'
      unfold HandleInv at hks' ⊢
      rw [hgh, hp, kindTimers_append]
      have : (⟨s.nextId, k, q⟩ : PendingTimer).kind ≠ k' := fun hEq => hkk hEq.symm
      rw [if_neg this, List.append_nil]
      exact hks'
  · rw [hp]
    rw [List.pairwise_append]
    refine ⟨hPW, List.pairwise_singleton _ _, ?_⟩
    intro a ha b hb
    have hb' : b = ⟨s.nextId, k, q⟩ := List.mem_singleton.mp hb
    subst hb'
    exact Nat.ne_of_lt (hB a ha)
  · intro t ht
    rw [hn]
    rw [hp] at ht
    rcases List.mem_append.mp ht with h1 | h1
    · exact Nat.lt_succ_of_lt (hB t h1)
    · rw [List.mem_singleton.mp h1]
      exact Nat.lt_succ_self _

lemma Inv.handle_of_mem {s : FanState} (h : Inv s) {t : PendingTimer}
    (ht : t ∈ s.pending) : getHandle s t.kind = some t.id := by
  have hki := h.1 t.kind
  unfold HandleInv at hki
  cases hk : getHandle s t.kind with
  | none =>
      rw [hk] at hki
      have : t ∈ kindTimers s.pending t.kind := mem_kindTimers.mpr ⟨ht, rfl⟩
      rw [hki] at this
      cases this
  | some j =>
      rw [hk] at hki
      obtain ⟨pay, hsing⟩ := hki
      have : t ∈ kindTimers s.pending t.kind := mem_kindTimers.mpr ⟨ht, rfl⟩
      rw [hsing] at this
      rw [List.mem_singleton.mp this]

lemma inv_initState : Inv initState := by
  refine ⟨fun k => ?_, List.Pairwise.nil, by intro t ht; cases ht⟩
  cases k <;> simp [HandleInv, getHandle, initState, kindTimers]

lemma Inv.cancel (k : TimerKind) {s : FanState} (h : Inv s) :
    Inv (cancel_timer_handle k s).1 := by
  unfold cancel_timer_handle
  cases hk : getHandle s k with
  | none => exact h
  | some i =>
      refine inv_remove h hk ?_ ?_ ?_ ?_
      · rw [getHandle_setHandle, if_pos rfl]
      · intro k' hkk
        rw [getHandle_setHandle, if_neg hkk]
        cases k' <;> rfl
      · rw [pending_setHandle]
      · rw [nextId_setHandle]

lemma Inv.sched_manual (cfg : Config) (pay : ℚ) {s : FanState} (h : Inv s) :
    Inv (schedule_manual_turn_off cfg pay s).1 := by
  unfold schedule_manual_turn_off
  split
  case isTrue hnone =>
      exact inv_sched h (k := .manualShutoff) (q := pay) hnone rfl
        (by intro k' hkk; cases k' <;> simp at hkk ⊢ <;> rfl) rfl rfl
  case isFalse => exact h

lemma Inv.sched_auto (cfg : Config) (env : Env) {s : FanState} (h : Inv s) :
    Inv (handle_fan_turn_off cfg env s).1 := by
  unfold handle_fan_turn_off
  split
  case isTrue hc =>
      exact inv_sched h (k := .autoShutoff) (q := 0) hc.1 rfl
        (by intro k' hkk; cases k' <;> simp at hkk ⊢ <;> rfl) rfl rfl
  case isFalse => exact h

lemma Inv.set_auto_activated (b : Bool) {s : FanState} (h : Inv s) :
    Inv { s with auto_activated := b } :=
  inv_congr h (by intro k; cases k <;> rfl) rfl rfl

lemma Inv.set_timer_turn_off (b : Bool) {s : FanState} (h : Inv s) :
    Inv { s with timer_turn_off := b } :=
  inv_congr h (by intro k; cases k <;> rfl) rfl rfl

lemma Inv.fan_turn_on (env : Env) {s : FanState} (h : Inv s) :
    Inv (handle_fan_turn_on env s).1 := by
  unfold handle_fan_turn_on
  exact ((h.set_auto_activated true).cancel .autoShutoff).cancel .manualShutoff

/-- The four state-view components of `turn_off_callback`'s result, plus
its command list. -/
lemma turn_off_callback_view (s : FanState) :
    (turn_off_callback s).1.humidity_turn_off_timer_handle = none ∧
      (turn_off_callback s).1.manual_turn_off_timer_handle =
        s.manual_turn_off_timer_handle ∧
      (turn_off_callback s).1.pending = s.pending ∧
      (turn_off_callback s).1.nextId = s.nextId ∧
      (turn_off_callback s).2 = [Cmd.turnOff] := by
  unfold turn_off_callback
  cases s.humidity_turn_off_timer_handle with
  | none => exact ⟨rfl, rfl, rfl, rfl, rfl⟩
  | some hdl =>
      dsimp only
      split <;> exact ⟨rfl, rfl, rfl, rfl, rfl⟩

/-- The four state-view components of `manual_turn_off_callback`'s result,
plus its command list. -/
lemma manual_turn_off_callback_view (pay : ℚ) (s : FanState) :
    (manual_turn_off_callback pay s).1.manual_turn_off_timer_handle = none ∧
      (manual_turn_off_callback pay s).1.humidity_turn_off_timer_handle =
        s.humidity_turn_off_timer_handle ∧
      (manual_turn_off_callback pay s).1.pending = s.pending ∧
      (manual_turn_off_callback pay s).1.nextId = s.nextId ∧
      (manual_turn_off_callback pay s).2 = [Cmd.turnOff] := by
  unfold manual_turn_off_callback
  cases s.manual_turn_off_timer_handle with
  | none => exact ⟨rfl, rfl, rfl, rfl, rfl⟩
  | some hdl =>
      dsimp only
      split <;> exact ⟨rfl, rfl, rfl, rfl, rfl⟩

lemma Inv.fire {s : FanState} (h : Inv s) {t : PendingTimer}
    (ht : t ∈ s.pending) : Inv (fireTimer t s).1 := by
  have hk := h.handle_of_mem ht
  unfold fireTimer
  cases hkind : t.kind with
  | autoShutoff =>
      obtain ⟨h1, h2, h3, h4, _⟩ :=
        turn_off_callback_view { s with pending := removePending s.pending t.id }
      refine inv_remove h (hkind ▸ hk) ?_ ?_ ?_ ?_
      · exact h1
      · intro k' hkk
        cases k' with
        | autoShutoff => exact absurd rfl hkk
        | manualShutoff => exact h2
      · exact h3
      · exact h4
  | manualShutoff =>
      obtain ⟨h1, h2, h3, h4, _⟩ :=
        manual_turn_off_callback_view t.payload
          { s with pending := removePending s.pending t.id }
      refine inv_remove h (hkind ▸ hk) ?_ ?_ ?_ ?_
      · exact h1
      · intro k' hkk
        cases k' with
        | autoShutoff => exact h2
        | manualShutoff => exact absurd rfl hkk
      · exact h3
      · exact h4

lemma Inv.app_switch (cfg : Config) (env : Env) (entity : Entity)
    (old new : SwVal) {s : FanState} (h : Inv s) :
    Inv (app_switch_branch cfg env entity old new s).1 := by
  unfold app_switch_branch
  split
  · split
    · exact h.sched_manual cfg 0
    · exact h
  · split
    · exact (h.cancel .manualShutoff).cancel .autoShutoff
    · exact h

lemma Inv.state_change_pres (cfg : Config) (env : Env) (entity : Entity)
    (old new : SwVal) {s : FanState} (h : Inv s) :
    Inv (state_change cfg env entity old new s).1 := by
  have hg := h.app_switch cfg env entity old new
  unfold state_change
  dsimp only
  repeat' split
  all_goals
    first
      | exact hg
      | exact hg.set_timer_turn_off false
      | exact (hg.set_auto_activated false).fan_turn_on env
      | exact hg.set_auto_activated false
      | exact hg.cancel .manualShutoff
      | exact hg.sched_manual cfg _
      | exact hg.fan_turn_on env
      | exact hg.sched_auto cfg env

/-- Every reachable controller state satisfies the timer invariant. -/
lemma Inv.of_reach {cfg : Config} {s : FanState} (h : Reach cfg s) : Inv s := by
  induction h with
  | init => exact inv_initState
  | step _ hstep ih =>
      cases hstep with
      | event env entity old new s => exact ih.state_change_pres cfg env entity old new
      | fire t s ht => exact ih.fire ht

/-- A gateless configuration with `threshold = 1`, `lower_threshold = 0`,
used for concrete instantiations. -/
def cfg0 : Config :=
  { hasGate := false, tempUnitF := false, threshold := 1, lower_threshold := 0,
    delay := 60, manual_delay := 600 }

/-- A store with all four readings valid (bathroom 100 % at 0 °C, living
0 % at 0 °C) and `exp` modelled as the constant-one function, giving
differential `24448000/5042349 ≈ 4.85`. -/
def env0 : Env :=
  { gate := .other, actor := .on, bathHum := .numeric 100, livHum := .numeric 0,
    bathTemp := .numeric 0, livTemp := .numeric 0, exp := fun _ => 1 }

/-- `env0` with the actor observed off. -/
def env1 : Env := { env0 with actor := .off }

/-- A state with one pending manual-shutoff timer (id 0). -/
def sManual0 : FanState :=
  { manual_turn_off_timer_handle := some 0, humidity_turn_off_timer_handle := none,
    auto_activated := false, timer_turn_off := false, timer_handle_list := [0],
    pending := [⟨0, .manualShutoff, 0⟩], nextId := 1 }

/-- A gated configuration for the C4 scenario. -/
def cfgC4 : Config :=
  { hasGate := true, tempUnitF := true, threshold := 2, lower_threshold := 1,
    delay := 60, manual_delay := 600 }

/-- A store whose gate is off and whose bathroom-humidity reading is
unavailable (so the snapshot is invalid). -/
def envC4 : Env :=
  { gate := .off, actor := .on, bathHum := .unavailable, livHum := .numeric 50,
    bathTemp := .numeric 70, livTemp := .numeric 70, exp := fun _ => 1 }

/-- A state that is auto-active with one pending auto-shutoff timer (id 0). -/
def sAuto0 : FanState :=
  { manual_turn_off_timer_handle := none, humidity_turn_off_timer_handle := some 0,
    auto_activated := true, timer_turn_off := false, timer_handle_list := [0],
    pending := [⟨0, .autoShutoff, 0⟩], nextId := 1 }

/-- A state that is auto-active with both timers pending (auto id 3,
manual id 5). -/
def sBoth : FanState :=
  { manual_turn_off_timer_handle := some 5, humidity_turn_off_timer_handle := some 3,
    auto_activated := true, timer_turn_off := false, timer_handle_list := [3, 5],
    pending := [⟨3, .autoShutoff, 0⟩, ⟨5, .manualShutoff, 2⟩], nextId := 6 }

/-- `cfg0` with a wide dead zone (`lower_threshold = 1`, `threshold = 10`)
so that `env0`'s differential lies strictly between the thresholds. -/
def cfg7 : Config := { cfg0 with threshold := 10, lower_threshold := 1 }

/-- A gated configuration used for the C6 witness. -/
def cfgW : Config := { cfgC4 with hasGate := true }

/-- A store with the gate on, the actor on and an invalid snapshot, so
that a gate `off → on` event schedules the manual shutoff and then skips
evaluation. -/
def envW : Env := { envC4 with gate := .on }

/-- A state with the self-caused marker set. -/
def sMarker : FanState := { initState with timer_turn_off := true }

/-- Arguments with every required key present but an inverted threshold
pair (`lower_threshold = 2 > threshold = 1`) and negative delays. -/
def argsBad : Args :=
  { app_switch := none, bathroom_humidity_sensor := some "sensor.bh",
    living_humidity_sensor := some "sensor.lh",
    bathroom_temperature_sensor := some "sensor.bt",
    living_temperature_sensor := some "sensor.lt",
    temperature_unit := none, threshold := some 1, lower_threshold := some 2,
    actor := some "switch.fan", delay := some (-5), manual_delay := some (-3) }

end BathroomFan

namespace StairwayFan

open BathroomFan (RawVal SwVal get_valid_state)

/-- External commands of the stairway controller. -/
inductive SfCmd where
  | turnOn
  | turnOff
  | cancelTimer (id : Nat)
  | scheduleTimer (id : Nat) (delay : Int)
deriving DecidableEq

/-- The store as read by the stairway handler: the app switch, the four
numeric entities, and the actor. -/
structure SfEnv where
  app_switch : SwVal
  upper_temp : RawVal
  lower_temp : RawVal
  threshold : RawVal
  lower_threshold : RawVal
  actor : SwVal

/-- Mutable instance state of `StairwayFan`, with the modelled scheduler
queue of pending one-shot timer ids. -/
structure SfState where
  turn_off_timer_handle : Option Nat
  turned_on_by_me : Bool
  timer_handle_list : List Nat
  pending : List Nat
  nextId : Nat
deriving DecidableEq

/-- The state set up at the end of the stairway `initialize`. -/
def initSf : SfState :=
  { turn_off_timer_handle := none, turned_on_by_me := false,
    timer_handle_list := [], pending := [], nextId := 0 }

/-- `handle_fan_turn_on` (stairway): if the actor is not on, turn it on
and set `turned_on_by_me`; then cancel a pending scheduled power-off, if
any. -/
def handle_fan_turn_on (env : SfEnv) (s : SfState) : SfState × List SfCmd :=
  let r1 : SfState × List SfCmd :=
    if env.actor ≠ SwVal.on then
      ({ s with turned_on_by_me := true }, [SfCmd.turnOn])
    else (s, [])
  match r1.1.turn_off_timer_handle with
  | some h =>
      ({ r1.1 with turn_off_timer_handle := none,
                   timer_handle_list := r1.1.timer_handle_list.erase h,
                   pending := r1.1.pending.filter fun i => decide (i ≠ h) },
       r1.2 ++ [SfCmd.cancelTimer h])
  | none => r1

/-- `handle_fan_turn_off` (stairway): only when `turned_on_by_me` is set
and the actor is not off, and no power-off is already scheduled, schedule
`turn_off_callback` after `delay` seconds. -/
def handle_fan_turn_off (delay : Int) (env : SfEnv) (s : SfState) :
    SfState × List SfCmd :=
  if s.turned_on_by_me = true ∧ env.actor ≠ SwVal.off then
    if s.turn_off_timer_handle = none then
      ({ s with turn_off_timer_handle := some s.nextId,
                timer_handle_list := s.timer_handle_list ++ [s.nextId],
                pending := s.pending ++ [s.nextId],
                nextId := s.nextId + 1 },
       [SfCmd.scheduleTimer s.nextId delay])
    else (s, [])
  else (s, [])

/-- `turn_off_callback` (stairway): command the actor off and reset the
flag only when `turned_on_by_me` is set; always clear the handle. -/
def turn_off_callback (s : SfState) : SfState × List SfCmd :=
  let r1 : SfState × List SfCmd :=
    if s.turned_on_by_me = true then
      ({ s with turned_on_by_me := false }, [SfCmd.turnOff])
    else (s, [])
  ({ r1.1 with turn_off_timer_handle := none }, r1.2)

/-- `state_change` (stairway): the handler ignores its
`(entity, attribute, old, new)` arguments (they are only logged), so they
are not parameters here; it returns unless the app switch reads "on",
validates the four numeric readings as a unit, and applies the
dual-threshold policy to `upper − lower`. -/
def state_change (delay : Int) (env : SfEnv) (s : SfState) :
    SfState × List SfCmd :=
  if env.app_switch ≠ SwVal.on then (s, [])
  else
    match get_valid_state env.upper_temp, get_valid_state env.lower_temp,
          get_valid_state env.threshold, get_valid_state env.lower_threshold with
    | some upper_temp, some lower_temp, some threshold, some lower_threshold =>
        let temp_difference := upper_temp - lower_temp
        if temp_difference > threshold then handle_fan_turn_on env s
        else if temp_difference ≤ lower_threshold then
          handle_fan_turn_off delay env s
        else (s, [])
    | _, _, _, _ => (s, [])

end StairwayFan

namespace BathroomFan

theorem calculate_absolute_humidity_eq_spec (exp : ℚ → ℚ) (tempUnitF : Bool)
    (rh t : ℚ) :
    calculate_absolute_humidity exp tempUnitF rh t =
      absoluteHumiditySpec exp tempUnitF rh t := by
  unfold calculate_absolute_humidity absoluteHumiditySpec
  cases tempUnitF <;> simp only [if_true, if_false, Bool.false_eq_true] <;> ring

theorem difference_is_sub (cfg : Config) (env : Env) (d b l : ℚ)
    (h : calculate_humidity_difference cfg env = some (d, b, l)) :
    d = b - l ∧
      b = calculate_absolute_humidity env.exp cfg.tempUnitF
            ((get_valid_state env.bathHum).getD 0) ((get_valid_state env.bathTemp).getD 0) ∧
      l = calculate_absolute_humidity env.exp cfg.tempUnitF
            ((get_valid_state env.livHum).getD 0) ((get_valid_state env.livTemp).getD 0) := by
  unfold calculate_humidity_difference at h
  cases hbh : get_valid_state env.bathHum with
  | none => rw [hbh] at h; cases h
  | some bh =>
    cases hlh : get_valid_state env.livHum with
    | none => rw [hbh, hlh] at h; cases h
    | some lh =>
      cases hbt : get_valid_state env.bathTemp with
      | none => rw [hbh, hlh, hbt] at h; cases h
      | some bt =>
        cases hlt : get_valid_state env.livTemp with
        | none => rw [hbh, hlh, hbt, hlt] at h; cases h
        | some lt =>
          rw [hbh, hlh, hbt, hlt] at h
          simp only [Option.some.injEq, Prod.mk.injEq] at h
          obtain ⟨hd, hb, hl⟩ := h
          subst hb hl hd
          simp [hbh, hlh, hbt, hlt]

end BathroomFan

namespace BathroomFan

/-- C8: for every relative humidity and temperature,
`calculate_absolute_humidity` equals the spec's closed formula
`(RH/100 · 6.112 · e^(17.67·C/(C+243.5)) · 100) / (461.5·K) · 1000` with
the unit-dependent `C` and `K`, and the differential returned by
`calculate_humidity_difference` is the bathroom zone's absolute humidity
minus the living zone's.  Both are Lean functions of their arguments, so
determinism and absence of side effects hold by construction. -/
theorem claim_C8 :
    (∀ (exp : ℚ → ℚ) (tempUnitF : Bool) (rh t : ℚ),
        calculate_absolute_humidity exp tempUnitF rh t =
          absoluteHumiditySpec exp tempUnitF rh t) ∧
      (∀ (cfg : Config) (env : Env) (d b l : ℚ),
        calculate_humidity_difference cfg env = some (d, b, l) → d = b - l) :=
  ⟨calculate_absolute_humidity_eq_spec,
    fun cfg env d b l h => (difference_is_sub cfg env d b l h).1⟩

/-- Witness for C8 at a concrete input: `env0`'s snapshot is valid with
differential `24448000/5042349`, and the difference equation holds there. -/
theorem claim_C8_witness :
    calculate_absolute_humidity (fun _ => 1) false 100 0 =
        absoluteHumiditySpec (fun _ => 1) false 100 0 ∧
      (24448000/5042349 : ℚ) = 24448000/5042349 - 0 :=
  ⟨claim_C8.1 (fun _ => 1) false 100 0,
    claim_C8.2 cfg0 env0 (24448000/5042349) (24448000/5042349) 0 (by
      norm_num [calculate_humidity_difference, calculate_absolute_humidity,
        get_valid_state, cfg0, env0])⟩

/-- Counterexample to C1 as stated: with the current snapshot `env0` valid
and its freshly recomputed differential `24448000/5042349 ≈ 4.85` strictly
above the threshold `1`, firing the pending ManualShutoff timer still
issues the actuator-off command (the callback takes no environment at all:
it never recomputes the differential, and uses the payload captured at
scheduling time only in its log line). -/
theorem claim_C1_counterexample :
    calculate_humidity_difference cfg0 env0 =
        some (24448000/5042349, 24448000/5042349, 0) ∧
      (24448000/5042349 : ℚ) > cfg0.threshold ∧
      (⟨0, .manualShutoff, 0⟩ : PendingTimer) ∈ sManual0.pending ∧
      (fireTimer ⟨0, TimerKind.manualShutoff, 0⟩ sManual0).2 = [Cmd.turnOff] := by
  refine ⟨?_, ?_, ?_, rfl⟩
  · norm_num [calculate_humidity_difference, calculate_absolute_humidity,
      get_valid_state, cfg0, env0]
  · norm_num [cfg0]
  · simp [sManual0]

/-- C1 amended: when the ManualShutoff timer fires, the actuator is turned
off unconditionally — the self-caused marker is set and the manual handle
cleared — regardless of the current differential, which is not recomputed
(the payload captured at scheduling time is only logged); `auto_activated`
is left unchanged and no command other than the off command is issued, so
no new timer is armed. -/
theorem claim_C1_amended (pay : ℚ) (s : FanState) :
    (manual_turn_off_callback pay s).2 = [Cmd.turnOff] ∧
      (manual_turn_off_callback pay s).1.manual_turn_off_timer_handle = none ∧
      (manual_turn_off_callback pay s).1.timer_turn_off = true ∧
      (manual_turn_off_callback pay s).1.auto_activated = s.auto_activated ∧
      (manual_turn_off_callback pay s).1.pending = s.pending := by
  unfold manual_turn_off_callback
  cases s.manual_turn_off_timer_handle with
  | none => exact ⟨rfl, rfl, rfl, rfl, rfl⟩
  | some hdl =>
      dsimp only
      split <;> exact ⟨rfl, rfl, rfl, rfl, rfl⟩

/-- Counterexample to C2 as stated: `argsBad` has every required key
present but `lower_threshold = 2 ≥ threshold = 1` and negative delays
`-5`/`-3`, yet `initialize` returns normally instead of raising. -/
theorem claim_C2_counterexample :
    argsBad.threshold = some 1 ∧ argsBad.lower_threshold = some 2 ∧
      (2 : ℚ) ≥ 1 ∧ argsBad.delay = some (-5) ∧ (-5 : Int) < 0 ∧
      initializeApp argsBad =
        Except.ok
          { app_switch := none, bathroom_humidity_sensor := "sensor.bh",
            living_humidity_sensor := "sensor.lh",
            bathroom_temperature_sensor := "sensor.bt",
            living_temperature_sensor := "sensor.lt", temperature_unit := "F",
            threshold := 1, lower_threshold := 2, actor := "switch.fan",
            delay := -5, manual_delay := -3 } := by
  refine ⟨rfl, rfl, by norm_num, rfl, by norm_num, rfl⟩

/-- C2 amended: construction fails exactly when a required key is missing
(`KeyError` on the dictionary access); no value validation is performed, so
configurations with `lowerThreshold ≥ threshold` or negative delays are
accepted and produce a running controller. -/
theorem claim_C2_amended (a : Args) :
    (∃ c, initializeApp a = Except.ok c) ↔
      (a.bathroom_humidity_sensor.isSome = true ∧
        a.living_humidity_sensor.isSome = true ∧
        a.bathroom_temperature_sensor.isSome = true ∧
        a.living_temperature_sensor.isSome = true ∧
        a.threshold.isSome = true ∧ a.lower_threshold.isSome = true ∧
        a.actor.isSome = true ∧ a.delay.isSome = true ∧
        a.manual_delay.isSome = true) := by
  unfold initializeApp
  cases a.bathroom_humidity_sensor <;> cases a.living_humidity_sensor <;>
    cases a.bathroom_temperature_sensor <;> cases a.living_temperature_sensor <;>
    cases a.threshold <;> cases a.lower_threshold <;> cases a.actor <;>
    cases a.delay <;> cases a.manual_delay <;> simp

/-- Counterexample to C3 as stated: in both shutoff callbacks the actuator
off command is executed strictly before the handle field is cleared
(program order, source lines 276-282 and 303-308), not after. -/
theorem claim_C3_counterexample :
    turn_off_callback_order.indexOf CbAction.commandActuatorOff <
        turn_off_callback_order.indexOf CbAction.clearHandleField ∧
      manual_turn_off_callback_order.indexOf CbAction.commandActuatorOff <
        manual_turn_off_callback_order.indexOf CbAction.clearHandleField := by
  decide

/-- C3 amended: when a shutoff timer fires, the callback does clear the
handle for its kind, but only after the actuator off command has been
issued — the off command itself still observes the pending handle; by the
time the callback returns the handle is absent. -/
theorem claim_C3_amended :
    (CbAction.clearHandleField ∈ turn_off_callback_order ∧
      turn_off_callback_order.indexOf CbAction.commandActuatorOff <
        turn_off_callback_order.indexOf CbAction.clearHandleField) ∧
      (CbAction.clearHandleField ∈ manual_turn_off_callback_order ∧
        manual_turn_off_callback_order.indexOf CbAction.commandActuatorOff <
          manual_turn_off_callback_order.indexOf CbAction.clearHandleField) ∧
      (∀ s, (turn_off_callback s).1.humidity_turn_off_timer_handle = none) ∧
      (∀ pay s,
        (manual_turn_off_callback pay s).1.manual_turn_off_timer_handle = none) := by
  refine ⟨by decide, by decide, ?_, ?_⟩
  · intro s
    exact (turn_off_callback_view s).1
  · intro pay s
    exact (manual_turn_off_callback_view pay s).1

end BathroomFan

namespace BathroomFan

/-- Counterexample to C4 as stated: a gate `on → off` event whose sensor
snapshot is invalid (bathroom humidity unavailable) still cancels the
pending auto-shutoff timer — the app-switch branch runs before the
validity check. -/
theorem claim_C4_counterexample :
    calculate_humidity_difference cfgC4 envC4 = none ∧
      (state_change cfgC4 envC4 Entity.gate SwVal.on SwVal.off
          sAuto0).1.humidity_turn_off_timer_handle = none ∧
      Cmd.cancelTimer 0 ∈
        (state_change cfgC4 envC4 Entity.gate SwVal.on SwVal.off sAuto0).2 := by
  refine ⟨rfl, rfl, ?_⟩
  simp [state_change, app_switch_branch, cancel_timer_handle, getHandle,
    setHandle, cfgC4, envC4, sAuto0]

/-- C4 amended: for sensor-change and actuator-change events (any event
whose entity is not the gate), an invalid snapshot makes the handler
return with the state unchanged and no command issued — no actuator
command, no timer scheduled or cancelled; gate-change events, however,
run the app-switch branch before the validity check and may cancel
(gate off) or schedule (gate on) a timer. -/
theorem claim_C4_amended (cfg : Config) (env : Env) (entity : Entity)
    (old new : SwVal) (s : FanState)
    (hent : entity ≠ Entity.gate)
    (hinv : calculate_humidity_difference cfg env = none) :
    state_change cfg env entity old new s = (s, []) := by
  simp [state_change, app_switch_branch, hent, hinv]

/-- Witness for C4 amended: a bathroom-humidity sensor event with an
invalid snapshot leaves the auto-active state `sAuto0` untouched. -/
theorem claim_C4_witness :
    state_change cfgC4 envC4 Entity.bathHum SwVal.other SwVal.other sAuto0 =
      (sAuto0, []) :=
  claim_C4_amended cfgC4 envC4 Entity.bathHum SwVal.other SwVal.other sAuto0
    (by decide) rfl

end BathroomFan

namespace BathroomFan

/-- C5: an external actor `on → off` event that is not self-caused
(`timer_turn_off` clear), while auto-activated and with the freshly
recomputed differential still above threshold, turns the actuator back on
within the same evaluation, leaves the state auto-activated, and cancels
both pending shutoff timers (their handles are cleared and a cancel
command is issued for each pending handle). -/
theorem claim_C5 (cfg : Config) (env : Env) (s : FanState) (d b l : ℚ)
    (hgate : ¬(cfg.hasGate = true ∧ env.gate = SwVal.off))
    (hdiff : calculate_humidity_difference cfg env = some (d, b, l))
    (hthr : d > cfg.threshold)
    (hoff : env.actor = SwVal.off)
    (hmarker : s.timer_turn_off = false)
    (hauto : s.auto_activated = true) :
    (state_change cfg env Entity.actor SwVal.on SwVal.off s).1.auto_activated = true ∧
      (state_change cfg env Entity.actor SwVal.on SwVal.off
          s).1.humidity_turn_off_timer_handle = none ∧
      (state_change cfg env Entity.actor SwVal.on SwVal.off
          s).1.manual_turn_off_timer_handle = none ∧
      Cmd.turnOn ∈ (state_change cfg env Entity.actor SwVal.on SwVal.off s).2 ∧
      (∀ i, s.humidity_turn_off_timer_handle = some i →
        Cmd.cancelTimer i ∈ (state_change cfg env Entity.actor SwVal.on SwVal.off s).2) ∧
      (∀ i, s.manual_turn_off_timer_handle = some i →
        Cmd.cancelTimer i ∈ (state_change cfg env Entity.actor SwVal.on SwVal.off s).2) := by
  rcases hm : s.manual_turn_off_timer_handle with _ | i <;>
    rcases hh : s.humidity_turn_off_timer_handle with _ | j <;>
    simp [state_change, app_switch_branch, hdiff, hgate, hmarker, hauto, hoff,
      hthr, handle_fan_turn_on, cancel_timer_handle, getHandle, setHandle, hm, hh]

/-- Witness for C5 at a concrete input: with `env1` (differential ≈ 4.85
above threshold 1, actor observed off) and both timers of `sBoth` pending,
the event turns the fan back on, keeps `AutoActive`, and cancels both
timers. -/
theorem claim_C5_witness :
    (state_change cfg0 env1 Entity.actor SwVal.on SwVal.off sBoth).1.auto_activated = true ∧
      (state_change cfg0 env1 Entity.actor SwVal.on SwVal.off
          sBoth).1.humidity_turn_off_timer_handle = none ∧
      (state_change cfg0 env1 Entity.actor SwVal.on SwVal.off
          sBoth).1.manual_turn_off_timer_handle = none ∧
      Cmd.turnOn ∈ (state_change cfg0 env1 Entity.actor SwVal.on SwVal.off sBoth).2 ∧
      (∀ i, sBoth.humidity_turn_off_timer_handle = some i →
        Cmd.cancelTimer i ∈ (state_change cfg0 env1 Entity.actor SwVal.on SwVal.off sBoth).2) ∧
      (∀ i, sBoth.manual_turn_off_timer_handle = some i →
        Cmd.cancelTimer i ∈ (state_change cfg0 env1 Entity.actor SwVal.on SwVal.off sBoth).2) :=
  claim_C5 cfg0 env1 sBoth (24448000/5042349) (24448000/5042349) 0
    (by simp [cfg0])
    (by norm_num [calculate_humidity_difference, calculate_absolute_humidity,
      get_valid_state, cfg0, env0, env1])
    (by norm_num [cfg0]) rfl rfl rfl

end BathroomFan

namespace BathroomFan

/-- C7: a sensor-change event (entity neither the actor nor the gate)
whose valid differential lies strictly between `lower_threshold` and
`threshold` leaves the state exactly as it was and issues no command at
all — no actuator command, no timer scheduled, none cancelled. -/
theorem claim_C7 (cfg : Config) (env : Env) (entity : Entity)
    (old new : SwVal) (s : FanState) (d b l : ℚ)
    (hent_a : entity ≠ Entity.actor) (hent_g : entity ≠ Entity.gate)
    (hdiff : calculate_humidity_difference cfg env = some (d, b, l))
    (hlo : cfg.lower_threshold < d) (hhi : d < cfg.threshold) :
    state_change cfg env entity old new s = (s, []) := by
  have h1 : ¬d > cfg.threshold := not_lt.mpr (le_of_lt hhi)
  have h2 : ¬d ≤ cfg.lower_threshold := not_le.mpr hlo
  simp [state_change, app_switch_branch, hent_a, hent_g, hdiff, h1, h2]

/-- Witness for C7 at a concrete input: with thresholds 1 and 10 the
differential ≈ 4.85 of `env0` is in the dead zone, and a living-space
temperature event leaves `sBoth` untouched with no command. -/
theorem claim_C7_witness :
    state_change cfg7 env0 Entity.livTemp SwVal.other SwVal.other sBoth =
      (sBoth, []) :=
  claim_C7 cfg7 env0 Entity.livTemp SwVal.other SwVal.other sBoth
    (24448000/5042349) (24448000/5042349) 0 (by decide) (by decide)
    (by norm_num [calculate_humidity_difference, calculate_absolute_humidity,
      get_valid_state, cfg7, cfg0, env0])
    (by norm_num [cfg7, cfg0]) (by norm_num [cfg7, cfg0])

/-- C9: if an actor `on → off` event arrives while the self-caused marker
`timer_turn_off` is set but the snapshot is invalid, the handler returns
before the marker-clearing branch, leaving the marker (and everything
else) unchanged; the next actor `on → off` event with a valid snapshot is
then consumed by the marker branch — it only clears the marker and does
nothing else, i.e. it is classified as self-caused regardless of its real
origin. -/
theorem claim_C9 (cfg : Config) (env env2 : Env) (s : FanState)
    (hmarker : s.timer_turn_off = true)
    (hinv : calculate_humidity_difference cfg env = none)
    (hvalid : (calculate_humidity_difference cfg env2).isSome = true)
    (hgate2 : ¬(cfg.hasGate = true ∧ env2.gate = SwVal.off)) :
    state_change cfg env Entity.actor SwVal.on SwVal.off s = (s, []) ∧
      state_change cfg env2 Entity.actor SwVal.on SwVal.off s =
        ({ s with timer_turn_off := false }, []) := by
  constructor
  · simp [state_change, app_switch_branch, hinv]
  · obtain ⟨⟨d, b, l⟩, hd⟩ := Option.isSome_iff_exists.mp hvalid
    simp [state_change, app_switch_branch, hd, hgate2, hmarker]

/-- Witness for C9 at a concrete input: with the marker set in `sMarker`,
an `on → off` actor event under the invalid store `envC4` changes nothing,
and a subsequent `on → off` actor event under the valid store `env0` is
absorbed by the marker branch. -/
theorem claim_C9_witness :
    state_change cfg0 envC4 Entity.actor SwVal.on SwVal.off sMarker =
        (sMarker, []) ∧
      state_change cfg0 env0 Entity.actor SwVal.on SwVal.off sMarker =
        ({ sMarker with timer_turn_off := false }, []) :=
  claim_C9 cfg0 envC4 env0 sMarker rfl rfl
    (by norm_num [calculate_humidity_difference, calculate_absolute_humidity,
      get_valid_state, cfg0, env0])
    (by simp [cfg0])

end BathroomFan

namespace BathroomFan

/-- C6: in every state reachable from the initial state by any sequence of
serialized events, at most one timer of each kind is pending in the
scheduler; moreover scheduling for a kind is a no-op (state unchanged, no
command) whenever the handle for that kind is already registered.  The
clearing of a handle on firing or cancellation is part of the inductive
invariant `Inv` maintained by `Inv.of_reach`. -/
theorem claim_C6 (cfg : Config) (s : FanState) (h : Reach cfg s) :
    (∀ k, (kindTimers s.pending k).length ≤ 1) ∧
      (∀ pay, s.manual_turn_off_timer_handle ≠ none →
        schedule_manual_turn_off cfg pay s = (s, [])) ∧
      (∀ env, s.humidity_turn_off_timer_handle ≠ none →
        handle_fan_turn_off cfg env s = (s, [])) := by
  have hInv := Inv.of_reach h
  refine ⟨fun k => ?_, fun pay hne => ?_, fun env hne => ?_⟩
  · have hk := hInv.1 k
    unfold HandleInv at hk
    cases hg : getHandle s k with
    | none => rw [hg] at hk; rw [hk]; simp
    | some i =>
        rw [hg] at hk
        obtain ⟨pay, hs⟩ := hk
        rw [hs]
        simp
  · unfold schedule_manual_turn_off
    rw [if_neg hne]
  · unfold handle_fan_turn_off
    rw [if_neg (fun hc => hne hc.1)]

/-- Witness for C6: after a gate `off → on` event from the initial state
(which schedules the manual shutoff before skipping the invalid
snapshot), the reachable state still has at most one pending manual
timer. -/
theorem claim_C6_witness :
    (kindTimers
        (state_change cfgW envW Entity.gate SwVal.off SwVal.on initState).1.pending
        TimerKind.manualShutoff).length ≤ 1 :=
  (claim_C6 cfgW _
      (Reach.step Reach.init
        (Step.event envW Entity.gate SwVal.off SwVal.on initState))).1
    TimerKind.manualShutoff

end BathroomFan

namespace StairwayFan

open BathroomFan (SwVal)

/-- C10: the stairway controller never commands its actuator off unless
`turned_on_by_me` is set: the event handler `state_change` never issues
an off command at all (it only ever turns on, schedules or cancels), the
delayed power-off is scheduled only under the `turned_on_by_me` guard,
and the timer callback with the flag clear issues no off command — it
only clears its handle.  Hence an externally activated fan is never
turned off by this controller. -/
theorem claim_C10 :
    (∀ (delay : Int) (env : SfEnv) (s : SfState),
        SfCmd.turnOff ∉ (state_change delay env s).2) ∧
      (∀ s : SfState, s.turned_on_by_me = false →
        turn_off_callback s = ({ s with turn_off_timer_handle := none }, [])) ∧
      (∀ (delay : Int) (env : SfEnv) (s : SfState), s.turned_on_by_me = false →
        handle_fan_turn_off delay env s = (s, [])) := by
  refine ⟨fun delay env s => ?_, fun s hflag => ?_, fun delay env s hflag => ?_⟩
  · have hon : ∀ s' : SfState, SfCmd.turnOff ∉ (handle_fan_turn_on env s').2 := by
      intro s'
      by_cases ha : env.actor = SwVal.on <;>
        rcases ht : s'.turn_off_timer_handle with _ | h0 <;>
        simp [handle_fan_turn_on, ha, ht]
    have hoff : ∀ s' : SfState, SfCmd.turnOff ∉ (handle_fan_turn_off delay env s').2 := by
      intro s'
      unfold handle_fan_turn_off
      split
      · split <;> simp
      · simp
    unfold state_change
    split
    · simp
    · split
      · dsimp only
        split
        · exact hon s
        · split
          · exact hoff s
          · simp
      · simp
  · unfold turn_off_callback
    simp [hflag]
  · unfold handle_fan_turn_off
    rw [if_neg (fun hc => by rw [hflag] at hc; exact Bool.false_ne_true hc.1)]

/-- Witness for C10 at a concrete input: with the flag clear in the
initial state, the callback only clears its handle and issues nothing. -/
theorem claim_C10_witness :
    turn_off_callback initSf = ({ initSf with turn_off_timer_handle := none }, []) :=
  claim_C10.2.1 initSf rfl

end StairwayFan
